import Mathlib

/-
Verification of the mesh-measurement plugin (src/plug-ins/rjMeshInfo.py).

The computational core is embedded shallowly over the rationals: Maya points
and vectors become `Point3`, a polygon face becomes `Face` (the data that
`MItMeshPolygon` yields for it in a fixed coordinate space), and a mesh
snapshot becomes `Mesh`, a family of face lists indexed by the integer space
constant that the plugin passes around (2 = MSpace.kObject, 4 = MSpace.kWorld).
Floating-point doubles are modelled exactly as rationals.
-/

/-- A 3D point or vector (models OpenMaya.MPoint / MVector). -/
structure Point3 where
  x : ℚ
  y : ℚ
  z : ℚ
deriving DecidableEq

/-- One triangle of a face's triangulation, as the three points that
`iter.getTriangle(triangle, points, indices, space)` writes into `points`. -/
structure Triangle where
  p1 : Point3
  p2 : Point3
  p3 : Point3
deriving DecidableEq

/-- One polygon face as `MItMeshPolygon` exposes it in a fixed space:
`normal` is the vector written by `iter.getNormal(normal, space)`,
`triangles` is the list of triangles delivered by `iter.numTriangles` /
`iter.getTriangle`, and `faceArea` is the number that `iter.getArea(areaPtr,
space)` reports for the face.  The latter is computed inside Maya, not by the
plugin, so here it is an input datum of the face. -/
structure Face where
  normal : Point3
  triangles : List Triangle
  faceArea : ℚ
deriving DecidableEq

/-- A mesh snapshot: for each integer space constant, the list of faces (with
their normals, triangulations and Maya-reported areas) that iterating
`MItMeshPolygon` yields in that space. -/
structure Mesh where
  faces : Nat → List Face

/-- Embeds `triangleArea(p1, p2, p3)`: absolute value of the 2D shoelace
expression over the x/y coordinates, times 0.5. -/
def triangleArea (p1 p2 p3 : Point3) : ℚ :=
  |p1.x * (p3.y - p2.y) + p2.x * (p1.y - p3.y) + p3.x * (p2.y - p1.y)| * 0.5

/-- Embeds `prismVolume(p1, p2, p3, area)`: average of the three z
coordinates, times the given area. -/
def prismVolume (p1 p2 p3 : Point3) (area : ℚ) : ℚ :=
  ((p1.z + p2.z + p3.z) / 3) * area

/-- Body of the `while not iter.isDone()` loop of `calculate`: starting from
the accumulator pair `(volume, area)`, add the face's triangle prism volumes
(sign chosen by `normal.z < 0`) when `calculateVolume`, and the face's
Maya-reported area when `calculateArea`. -/
def calculateStep (calculateVolume calculateArea : Bool)
    (acc : ℚ × ℚ) (face : Face) : ℚ × ℚ :=
  let volume :=
    if calculateVolume then
      face.triangles.foldl (fun v t =>
        let tArea := triangleArea t.p1 t.p2 t.p3
        let pVolume := prismVolume t.p1 t.p2 t.p3 tArea
        if face.normal.z < 0 then v - pVolume else v + pVolume) acc.1
    else acc.1
  let area := if calculateArea then acc.2 + face.faceArea else acc.2
  (volume, area)

/-- Embeds `calculate(obj, space, calculateVolume, calculateArea)`: fold the
per-face loop body over the faces the iterator yields in `space`, starting
from `volume = 0`, `area = 0`, returning the pair `(volume, area)`. -/
def calculate (obj : Mesh) (space : Nat)
    (calculateVolume calculateArea : Bool) : ℚ × ℚ :=
  (obj.faces space).foldl (calculateStep calculateVolume calculateArea) (0, 0)

/-- The 2D shoelace expression inside `triangleArea`, before the absolute
value (twice the signed projected area, in the source's sign convention). -/
def shoelaceX2 (p1 p2 p3 : Point3) : ℚ :=
  p1.x * (p3.y - p2.y) + p2.x * (p1.y - p3.y) + p3.x * (p2.y - p1.y)

/-- Sign factor applied to a face's prism volumes: -1 when the face normal's
z component is negative, +1 otherwise. -/
def signFactor (f : Face) : ℚ :=
  if f.normal.z < 0 then -1 else 1

/-- The unsigned projected area of one triangle, as `calculate` computes it. -/
def triArea (t : Triangle) : ℚ :=
  triangleArea t.p1 t.p2 t.p3

/-- The prism volume `calculate` computes for one triangle. -/
def triPrism (t : Triangle) : ℚ :=
  prismVolume t.p1 t.p2 t.p3 (triangleArea t.p1 t.p2 t.p3)

/-- The volume-relevant data of a face: its normal and its triangulation. -/
def volumeData (f : Face) : Point3 × List Triangle :=
  (f.normal, f.triangles)

/-- The contribution of a face to the volume accumulator, as a function of
its volume-relevant data alone. -/
def contribOfData (d : Point3 × List Triangle) : ℚ :=
  (if d.1.z < 0 then -1 else 1) * (d.2.map triPrism).sum

/-- The contribution of one face to the volume accumulator of `calculate`. -/
def faceVolumeContrib (f : Face) : ℚ :=
  signFactor f * (f.triangles.map triPrism).sum

/-- Total volume that `calculate` accumulates over a mesh in a space. -/
def volumeSum (m : Mesh) (s : Nat) : ℚ :=
  ((m.faces s).map faceVolumeContrib).sum

/-- Total area that `calculate` accumulates over a mesh in a space. -/
def areaSum (m : Mesh) (s : Nat) : ℚ :=
  ((m.faces s).map Face.faceArea).sum

/-- Signed sum of projected triangle areas over a mesh; a closed,
consistently oriented mesh with geometric normals has projected-area
balance 0 (the projections of up-facing and down-facing faces cancel). -/
def projectedArea (m : Mesh) (s : Nat) : ℚ :=
  ((m.faces s).map (fun f => signFactor f * (f.triangles.map triArea).sum)).sum

theorem triangleArea_abs (p1 p2 p3 : Point3) :
    triangleArea p1 p2 p3 = |shoelaceX2 p1 p2 p3| * 0.5 := rfl

theorem sum_map_neg {α : Type} (l : List α) (g : α → ℚ) :
    (l.map fun x => -(g x)).sum = -((l.map g).sum) := by
  induction l with
  | nil => simp
  | cons x xs ih =>
      simp only [List.map_cons, List.sum_cons, ih, neg_add]

theorem sum_map_add {α : Type} (l : List α) (g h : α → ℚ) :
    (l.map fun x => g x + h x).sum = (l.map g).sum + (l.map h).sum := by
  induction l with
  | nil => simp
  | cons x xs ih =>
      simp only [List.map_cons, List.sum_cons, ih]
      ring

theorem sum_map_mul_const {α : Type} (c : ℚ) (l : List α) (g : α → ℚ) :
    (l.map fun x => c * g x).sum = c * (l.map g).sum := by
  induction l with
  | nil => simp
  | cons x xs ih =>
      simp only [List.map_cons, List.sum_cons, ih]
      ring

theorem map_congr_mem {α β : Type} (l : List α) (f g : α → β)
    (h : ∀ a ∈ l, f a = g a) : l.map f = l.map g := by
  induction l with
  | nil => rfl
  | cons x xs ih =>
      simp only [List.map_cons]
      rw [h x (by simp), ih (fun a ha => h a (by simp [ha]))]

theorem volumeFoldl_eq (f : Face) (l : List Triangle) (v : ℚ) :
    l.foldl (fun v t =>
        let tArea := triangleArea t.p1 t.p2 t.p3
        let pVolume := prismVolume t.p1 t.p2 t.p3 tArea
        if f.normal.z < 0 then v - pVolume else v + pVolume) v
      = v + signFactor f * (l.map triPrism).sum := by
  induction l generalizing v with
  | nil => simp
  | cons t ts ih =>
      simp only [List.foldl_cons, List.map_cons, List.sum_cons, ih]
      unfold signFactor triPrism
      by_cases h : f.normal.z < 0
      · simp only [if_pos h]
        ring
      · simp only [if_neg h]
        ring

theorem calculateStep_eq (cv ca : Bool) (v a : ℚ) (f : Face) :
    calculateStep cv ca (v, a) f
      = (v + (if cv then faceVolumeContrib f else 0),
         a + (if ca then f.faceArea else 0)) := by
  unfold calculateStep faceVolumeContrib
  cases cv <;> cases ca <;>
    simp [volumeFoldl_eq, faceVolumeContrib]

theorem calculateFoldl_eq (cv ca : Bool) (l : List Face) (v a : ℚ) :
    l.foldl (calculateStep cv ca) (v, a)
      = (v + (if cv then (l.map faceVolumeContrib).sum else 0),
         a + (if ca then (l.map Face.faceArea).sum else 0)) := by
  induction l generalizing v a with
  | nil => simp
  | cons f fs ih =>
      simp only [List.foldl_cons, List.map_cons, List.sum_cons]
      rw [calculateStep_eq, ih]
      cases cv <;> cases ca <;> simp [add_assoc]

theorem calculate_eq (obj : Mesh) (space : Nat) (cv ca : Bool) :
    calculate obj space cv ca
      = ((if cv then volumeSum obj space else 0),
         (if ca then areaSum obj space else 0)) := by
  unfold calculate volumeSum areaSum
  rw [calculateFoldl_eq]
  simp

theorem shoelaceX2_rotate (p1 p2 p3 : Point3) :
    shoelaceX2 p2 p3 p1 = shoelaceX2 p1 p2 p3 := by
  unfold shoelaceX2
  ring

theorem shoelaceX2_swap23 (p1 p2 p3 : Point3) :
    shoelaceX2 p1 p3 p2 = -shoelaceX2 p1 p2 p3 := by
  unfold shoelaceX2
  ring

theorem shoelaceX2_swap12 (p1 p2 p3 : Point3) :
    shoelaceX2 p2 p1 p3 = -shoelaceX2 p1 p2 p3 := by
  unfold shoelaceX2
  ring

theorem shoelaceX2_swap13 (p1 p2 p3 : Point3) :
    shoelaceX2 p3 p2 p1 = -shoelaceX2 p1 p2 p3 := by
  unfold shoelaceX2
  ring

theorem triangleArea_rotate (p1 p2 p3 : Point3) :
    triangleArea p2 p3 p1 = triangleArea p1 p2 p3 := by
  rw [triangleArea_abs, triangleArea_abs, shoelaceX2_rotate]

theorem triangleArea_swap23 (p1 p2 p3 : Point3) :
    triangleArea p1 p3 p2 = triangleArea p1 p2 p3 := by
  rw [triangleArea_abs, triangleArea_abs, shoelaceX2_swap23, abs_neg]

theorem triangleArea_swap12 (p1 p2 p3 : Point3) :
    triangleArea p2 p1 p3 = triangleArea p1 p2 p3 := by
  rw [triangleArea_abs, triangleArea_abs, shoelaceX2_swap12, abs_neg]

theorem triangleArea_swap13 (p1 p2 p3 : Point3) :
    triangleArea p3 p2 p1 = triangleArea p1 p2 p3 := by
  rw [triangleArea_abs, triangleArea_abs, shoelaceX2_swap13, abs_neg]

theorem triangleArea_nonneg (p1 p2 p3 : Point3) :
    0 ≤ triangleArea p1 p2 p3 := by
  rw [triangleArea_abs]
  have h05 : (0 : ℚ) ≤ 0.5 := by norm_num
  exact mul_nonneg (abs_nonneg _) h05

/-- C9: for all triples of 3D points, triangleArea is non-negative and
invariant under every permutation of its three arguments. -/
theorem triangleArea_nonneg_perm_invariant (p1 p2 p3 : Point3) :
    0 ≤ triangleArea p1 p2 p3 ∧
    triangleArea p1 p2 p3 = triangleArea p1 p3 p2 ∧
    triangleArea p1 p2 p3 = triangleArea p2 p1 p3 ∧
    triangleArea p1 p2 p3 = triangleArea p2 p3 p1 ∧
    triangleArea p1 p2 p3 = triangleArea p3 p1 p2 ∧
    triangleArea p1 p2 p3 = triangleArea p3 p2 p1 := by
  refine ⟨triangleArea_nonneg p1 p2 p3, ?_, ?_, ?_, ?_, ?_⟩
  · rw [triangleArea_swap23]
  · rw [triangleArea_swap12]
  · rw [triangleArea_rotate p1 p2 p3]
  · rw [triangleArea_rotate p2 p3 p1, triangleArea_rotate p1 p2 p3]
  · rw [triangleArea_swap13]

/-- Follows the words of claim C1 and spec section 4.1: the SIGNED planar
area via the 2D shoelace formula over the x/y coordinates (same expression
as `triangleArea`, but without the absolute value). -/
def signedTriangleArea (p1 p2 p3 : Point3) : ℚ :=
  (p1.x * (p3.y - p2.y) + p2.x * (p1.y - p3.y) + p3.x * (p2.y - p1.y)) * 0.5

/-- Follows the words of claim C1: the volume obtained by triangulating each
face, taking the signed shoelace area of each triangle, forming the prism
volume from it, and flipping the sign exactly when the face normal's z
component is negative. -/
def volumeSpecSigned (m : Mesh) (s : Nat) : ℚ :=
  ((m.faces s).map (fun f =>
    (if f.normal.z < 0 then (-1 : ℚ) else 1) *
      ((f.triangles.map (fun t =>
        prismVolume t.p1 t.p2 t.p3 (signedTriangleArea t.p1 t.p2 t.p3))).sum))).sum

/-- A one-face mesh whose single triangle is wound clockwise in the x/y
projection (its shoelace expression is negative) while its normal points up. -/
def cexMesh : Mesh :=
  ⟨fun _ => [⟨⟨0, 0, 1⟩, [⟨⟨0, 0, 1⟩, ⟨1, 0, 1⟩, ⟨0, 1, 1⟩⟩], 0.5⟩]⟩

/-- C1 counterexample: the code's volume is NOT the accumulation of signed
shoelace prism volumes described by the claim; `triangleArea` takes the
absolute value of the shoelace expression, so on a clockwise-wound triangle
with an upward normal the two computations differ. -/
theorem calculate_volume_signed_shoelace_cex :
    (calculate cexMesh 4 true true).1 ≠ volumeSpecSigned cexMesh 4 ∧
    triangleArea ⟨0, 0, 1⟩ ⟨1, 0, 1⟩ ⟨0, 1, 1⟩
      ≠ signedTriangleArea ⟨0, 0, 1⟩ ⟨1, 0, 1⟩ ⟨0, 1, 1⟩ := by
  constructor
  · norm_num [calculate, calculateStep, cexMesh, volumeSpecSigned,
      triangleArea, signedTriangleArea, prismVolume]
  · norm_num [triangleArea, signedTriangleArea]

/-- C1 (amended): for every mesh and space, when volume is requested the
volume component of `calculate` equals the sum over faces of the sum over
the face's triangles of the prism volume built from the ABSOLUTE value of
the 2D shoelace expression, with the face's total negated exactly when the
face normal's z component is negative. -/
theorem calculate_volume_abs_shoelace_prism_sum (m : Mesh) (s : Nat) (b : Bool) :
    (calculate m s true b).1 =
      ((m.faces s).map (fun f =>
        (if f.normal.z < 0 then (-1 : ℚ) else 1) *
          ((f.triangles.map (fun t =>
            prismVolume t.p1 t.p2 t.p3 (triangleArea t.p1 t.p2 t.p3))).sum))).sum := by
  rw [calculate_eq]
  simp only [if_true]
  unfold volumeSum faceVolumeContrib signFactor triPrism
  rfl

/-- Meshes used to witness that skipping a quantity skips its work: `mA` and
`mB` share their Maya-reported face areas but have different normals and
triangulations, `mC` and `mD` share normals and triangulations but have
different Maya-reported face areas. -/
def mA : Mesh :=
  ⟨fun _ => [⟨⟨0, 0, 1⟩, [⟨⟨0, 0, 0⟩, ⟨2, 0, 0⟩, ⟨0, 2, 0⟩⟩], 7⟩]⟩

def mB : Mesh :=
  ⟨fun _ => [⟨⟨0, 0, -1⟩, [⟨⟨0, 0, 3⟩, ⟨1, 0, 3⟩, ⟨0, 1, 3⟩⟩], 7⟩]⟩

def mC : Mesh :=
  ⟨fun _ => [⟨⟨0, 0, 1⟩, [⟨⟨0, 0, 2⟩, ⟨1, 0, 2⟩, ⟨0, 1, 2⟩⟩], 7⟩]⟩

def mD : Mesh :=
  ⟨fun _ => [⟨⟨0, 0, 1⟩, [⟨⟨0, 0, 2⟩, ⟨1, 0, 2⟩, ⟨0, 1, 2⟩⟩], 11⟩]⟩

/-- C2: with `calculateVolume = false` the volume component is 0 and none of
the volume work is performed (the result is the pure face-area sum, and it
is unchanged by replacing normals and triangulations arbitrarily);
symmetrically with `calculateArea = false` the area component is 0 and the
result is unchanged by replacing the Maya-reported face areas arbitrarily. -/
theorem calculate_skip_flags (m m₁ m₂ : Mesh) (s : Nat) (b : Bool) :
    (calculate m s false b).1 = 0 ∧
    (calculate m s b false).2 = 0 ∧
    calculate m s false true = (0, areaSum m s) ∧
    calculate m s true false = (volumeSum m s, 0) ∧
    calculate m s false false = (0, 0) ∧
    ((m₁.faces s).map Face.faceArea = (m₂.faces s).map Face.faceArea →
      calculate m₁ s false true = calculate m₂ s false true) ∧
    ((m₁.faces s).map volumeData = (m₂.faces s).map volumeData →
      calculate m₁ s true false = calculate m₂ s true false) := by
  have hdata : ∀ mm : Mesh, (mm.faces s).map faceVolumeContrib
      = ((mm.faces s).map volumeData).map contribOfData := by
    intro mm
    rw [List.map_map]
    rfl
  refine ⟨?_, ?_, ?_, ?_, ?_, ?_, ?_⟩
  · rw [calculate_eq]
    simp
  · rw [calculate_eq]
    simp
  · rw [calculate_eq]
    simp
  · rw [calculate_eq]
    simp
  · rw [calculate_eq]
    simp
  · intro h
    rw [calculate_eq, calculate_eq]
    unfold areaSum
    rw [h]
    simp
  · intro h
    rw [calculate_eq, calculate_eq]
    unfold volumeSum
    rw [hdata, hdata, h]
    simp

/-- C2 witness: concrete meshes showing both independence conjuncts at work. -/
theorem calculate_skip_flags_witness :
    ((mA.faces 4).map Face.faceArea = (mB.faces 4).map Face.faceArea ∧
      calculate mA 4 false true = calculate mB 4 false true) ∧
    ((mC.faces 4).map volumeData = (mD.faces 4).map volumeData ∧
      calculate mC 4 true false = calculate mD 4 true false) :=
  ⟨⟨by decide, (calculate_skip_flags mA mA mB 4 true).2.2.2.2.2.1 (by decide)⟩,
   ⟨by decide, (calculate_skip_flags mA mC mD 4 true).2.2.2.2.2.2 (by decide)⟩⟩

theorem calculate_true_true (m : Mesh) (s : Nat) :
    calculate m s true true = (volumeSum m s, areaSum m s) := by
  rw [calculate_eq]
  simp

/-- Winding reversal of one triangle: the same three points in the opposite
order. -/
def reverseTriangle (t : Triangle) : Triangle :=
  ⟨t.p3, t.p2, t.p1⟩

/-- Negation of a vector. -/
def negVector (p : Point3) : Point3 :=
  ⟨-p.x, -p.y, -p.z⟩

/-- Reversing the winding of a face reverses each triangle's point order and
flips the geometric face normal; the face's surface area as Maya reports it
does not depend on orientation and is unchanged. -/
def reverseFace (f : Face) : Face :=
  ⟨negVector f.normal, f.triangles.map reverseTriangle, f.faceArea⟩

/-- Reversing the winding of every face of a mesh. -/
def reverseMesh (m : Mesh) : Mesh :=
  ⟨fun s => (m.faces s).map reverseFace⟩

theorem triPrism_reverse (t : Triangle) :
    triPrism (reverseTriangle t) = triPrism t := by
  show prismVolume t.p3 t.p2 t.p1 (triangleArea t.p3 t.p2 t.p1)
      = prismVolume t.p1 t.p2 t.p3 (triangleArea t.p1 t.p2 t.p3)
  rw [triangleArea_swap13]
  unfold prismVolume
  ring

theorem faceVolumeContrib_reverse (f : Face)
    (h : f.normal.z = 0 → ∀ t ∈ f.triangles, triangleArea t.p1 t.p2 t.p3 = 0) :
    faceVolumeContrib (reverseFace f) = -faceVolumeContrib f := by
  have hS : ((reverseFace f).triangles.map triPrism).sum
      = (f.triangles.map triPrism).sum := by
    show ((f.triangles.map reverseTriangle).map triPrism).sum = _
    rw [List.map_map]
    exact congrArg List.sum
      (map_congr_mem _ _ _ (fun t _ => triPrism_reverse t))
  have hz : (reverseFace f).normal.z = -f.normal.z := rfl
  unfold faceVolumeContrib signFactor
  rw [hS, hz]
  rcases lt_trichotomy f.normal.z 0 with hlt | heq | hgt
  · rw [if_neg (by linarith), if_pos hlt]
    ring
  · have hzero : ∀ x ∈ f.triangles.map triPrism, x = 0 := by
      intro x hx
      rcases List.mem_map.mp hx with ⟨t, ht, rfl⟩
      unfold triPrism
      rw [h heq t ht]
      unfold prismVolume
      ring
    rw [List.sum_eq_zero hzero]
    simp
  · rw [if_pos (by linarith), if_neg (not_lt.mpr (le_of_lt hgt))]
    ring

/-- C4: reversing every face's winding (and hence every face normal) negates
the computed volume and leaves the computed area unchanged.  The hypothesis
renders "closed, consistently-oriented mesh" in the embedding: a face whose
stored normal has zero z component is a vertical face, so its triangles have
zero projected (shoelace) area; this holds of any mesh whose stored normals
are the geometric face normals. -/
theorem calculate_reverse_winding (m : Mesh) (s : Nat)
    (h : ∀ f ∈ m.faces s, f.normal.z = 0 →
      ∀ t ∈ f.triangles, triangleArea t.p1 t.p2 t.p3 = 0) :
    (calculate (reverseMesh m) s true true).1 = -(calculate m s true true).1 ∧
    (calculate (reverseMesh m) s true true).2 = (calculate m s true true).2 := by
  rw [calculate_true_true, calculate_true_true]
  constructor
  · show volumeSum (reverseMesh m) s = -volumeSum m s
    unfold volumeSum
    have hfaces : (reverseMesh m).faces s = (m.faces s).map reverseFace := rfl
    rw [hfaces, List.map_map]
    have hcong : List.map (faceVolumeContrib ∘ reverseFace) (m.faces s)
        = List.map (fun f => -faceVolumeContrib f) (m.faces s) :=
      map_congr_mem _ _ _ (fun f hf => faceVolumeContrib_reverse f (h f hf))
    rw [hcong, sum_map_neg]
  · show areaSum (reverseMesh m) s = areaSum m s
    unfold areaSum
    have hfaces : (reverseMesh m).faces s = (m.faces s).map reverseFace := rfl
    rw [hfaces, List.map_map]
    rfl

/-- An axis-aligned unit cube: six faces, two triangles each, outward
geometric normals, Maya-reported face area 1 per face. -/
def unitCube : Mesh :=
  ⟨fun _ => [
    ⟨⟨0, 0, -1⟩, [⟨⟨0, 0, 0⟩, ⟨1, 0, 0⟩, ⟨1, 1, 0⟩⟩,
                  ⟨⟨0, 0, 0⟩, ⟨1, 1, 0⟩, ⟨0, 1, 0⟩⟩], 1⟩,
    ⟨⟨0, 0, 1⟩, [⟨⟨0, 0, 1⟩, ⟨1, 0, 1⟩, ⟨1, 1, 1⟩⟩,
                 ⟨⟨0, 0, 1⟩, ⟨1, 1, 1⟩, ⟨0, 1, 1⟩⟩], 1⟩,
    ⟨⟨0, -1, 0⟩, [⟨⟨0, 0, 0⟩, ⟨1, 0, 0⟩, ⟨1, 0, 1⟩⟩,
                  ⟨⟨0, 0, 0⟩, ⟨1, 0, 1⟩, ⟨0, 0, 1⟩⟩], 1⟩,
    ⟨⟨1, 0, 0⟩, [⟨⟨1, 0, 0⟩, ⟨1, 1, 0⟩, ⟨1, 1, 1⟩⟩,
                 ⟨⟨1, 0, 0⟩, ⟨1, 1, 1⟩, ⟨1, 0, 1⟩⟩], 1⟩,
    ⟨⟨0, 1, 0⟩, [⟨⟨1, 1, 0⟩, ⟨0, 1, 0⟩, ⟨0, 1, 1⟩⟩,
                 ⟨⟨1, 1, 0⟩, ⟨0, 1, 1⟩, ⟨1, 1, 1⟩⟩], 1⟩,
    ⟨⟨-1, 0, 0⟩, [⟨⟨0, 1, 0⟩, ⟨0, 0, 0⟩, ⟨0, 0, 1⟩⟩,
                  ⟨⟨0, 1, 0⟩, ⟨0, 0, 1⟩, ⟨0, 1, 1⟩⟩], 1⟩]⟩

/-- C4 witness: the unit cube satisfies the vertical-face hypothesis, and
reversing its winding negates its volume and preserves its area. -/
theorem calculate_reverse_winding_witness :
    (∀ f ∈ unitCube.faces 4, f.normal.z = 0 →
      ∀ t ∈ f.triangles, triangleArea t.p1 t.p2 t.p3 = 0) ∧
    ((calculate (reverseMesh unitCube) 4 true true).1
        = -(calculate unitCube 4 true true).1 ∧
     (calculate (reverseMesh unitCube) 4 true true).2
        = (calculate unitCube 4 true true).2) :=
  ⟨by norm_num [unitCube, triangleArea],
   calculate_reverse_winding unitCube 4 (by norm_num [unitCube, triangleArea])⟩

/-- Componentwise difference of points. -/
def subPoint (p q : Point3) : Point3 :=
  ⟨p.x - q.x, p.y - q.y, p.z - q.z⟩

/-- Componentwise sum of points. -/
def addPoint (p q : Point3) : Point3 :=
  ⟨p.x + q.x, p.y + q.y, p.z + q.z⟩

/-- Cross product of two vectors. -/
def crossVec (u w : Point3) : Point3 :=
  ⟨u.y * w.z - u.z * w.y, u.z * w.x - u.x * w.z, u.x * w.y - u.y * w.x⟩

/-- Edge cross product of a triangle; it is the zero vector exactly when the
triangle is degenerate (its three points collinear), and its norm is twice
the triangle's true surface area. -/
def triangleCross (t : Triangle) : Point3 :=
  crossVec (subPoint t.p2 t.p1) (subPoint t.p3 t.p1)

/-- Sum of the edge cross products of a face's triangles; for the planar
faces Maya triangulates, its norm is twice the face's surface area. -/
def faceCrossSum (f : Face) : Point3 :=
  f.triangles.foldr (fun t acc => addPoint (triangleCross t) acc) ⟨0, 0, 0⟩

/-- Squared Euclidean norm. -/
def normSq (p : Point3) : ℚ :=
  p.x ^ 2 + p.y ^ 2 + p.z ^ 2

theorem shoelaceX2_crossZ (p1 p2 p3 : Point3) :
    shoelaceX2 p1 p2 p3 = -(crossVec (subPoint p2 p1) (subPoint p3 p1)).z := by
  simp only [shoelaceX2, crossVec, subPoint]
  ring

theorem triangleArea_of_cross_zero (p1 p2 p3 : Point3)
    (h : crossVec (subPoint p2 p1) (subPoint p3 p1) = ⟨0, 0, 0⟩) :
    triangleArea p1 p2 p3 = 0 := by
  have hz : (crossVec (subPoint p2 p1) (subPoint p3 p1)).z = 0 := by
    rw [h]
  rw [triangleArea_abs, shoelaceX2_crossZ, hz]
  simp

theorem crossFold_zero (l : List Triangle)
    (h : ∀ t ∈ l, triangleCross t = ⟨0, 0, 0⟩) :
    l.foldr (fun t acc => addPoint (triangleCross t) acc) ⟨0, 0, 0⟩
      = (⟨0, 0, 0⟩ : Point3) := by
  induction l with
  | nil => rfl
  | cons t ts ih =>
      simp only [List.foldr_cons]
      rw [h t (by simp), ih (fun a ha => h a (by simp [ha]))]
      simp [addPoint]

/-- C5: a degenerate (zero-area) triangle contributes zero to the volume
accumulator, and on a mesh all of whose triangles are degenerate `calculate`
returns volume 0 and area 0.  The first area-consistency hypothesis models
what `iter.getArea` returns on the planar faces Maya triangulates: the
face's area squared is the squared half-norm of the summed triangle edge
cross products, so a fully degenerate face has Maya-reported area 0. -/
theorem degenerate_triangles_contribute_zero :
    (∀ p1 p2 p3 : Point3,
      crossVec (subPoint p2 p1) (subPoint p3 p1) = ⟨0, 0, 0⟩ →
      prismVolume p1 p2 p3 (triangleArea p1 p2 p3) = 0) ∧
    (∀ (m : Mesh) (s : Nat),
      (∀ f ∈ m.faces s, 0 ≤ f.faceArea ∧
        4 * f.faceArea ^ 2 = normSq (faceCrossSum f)) →
      (∀ f ∈ m.faces s, ∀ t ∈ f.triangles, triangleCross t = ⟨0, 0, 0⟩) →
      calculate m s true true = (0, 0)) := by
  constructor
  · intro p1 p2 p3 h
    rw [triangleArea_of_cross_zero p1 p2 p3 h]
    unfold prismVolume
    ring
  · intro m s harea hdeg
    rw [calculate_true_true]
    have hvol : volumeSum m s = 0 := by
      unfold volumeSum
      apply List.sum_eq_zero
      intro x hx
      rcases List.mem_map.mp hx with ⟨f, hf, rfl⟩
      unfold faceVolumeContrib
      have hz : (f.triangles.map triPrism).sum = 0 := by
        apply List.sum_eq_zero
        intro y hy
        rcases List.mem_map.mp hy with ⟨t, ht, rfl⟩
        unfold triPrism
        rw [triangleArea_of_cross_zero t.p1 t.p2 t.p3 (hdeg f hf t ht)]
        unfold prismVolume
        ring
      rw [hz, mul_zero]
    have har : areaSum m s = 0 := by
      unfold areaSum
      apply List.sum_eq_zero
      intro x hx
      rcases List.mem_map.mp hx with ⟨f, hf, rfl⟩
      have hcz : faceCrossSum f = ⟨0, 0, 0⟩ :=
        crossFold_zero f.triangles (hdeg f hf)
      have hnz : normSq (faceCrossSum f) = 0 := by
        rw [hcz]
        simp [normSq]
      have hsq : f.faceArea ^ 2 = 0 := by
        have h4 := (harea f hf).2
        rw [hnz] at h4
        linarith
      exact sq_eq_zero_iff.mp hsq
    rw [hvol, har]

/-- A mesh whose single triangle has its three points collinear and whose
Maya-reported face area is accordingly 0. -/
def degMesh : Mesh :=
  ⟨fun _ => [⟨⟨0, 0, 1⟩, [⟨⟨0, 0, 0⟩, ⟨1, 1, 1⟩, ⟨2, 2, 2⟩⟩], 0⟩]⟩

/-- C5 witness: the degenerate mesh satisfies both hypotheses and measures
to volume 0, area 0. -/
theorem degenerate_triangles_contribute_zero_witness :
    (∀ f ∈ degMesh.faces 4, 0 ≤ f.faceArea ∧
      4 * f.faceArea ^ 2 = normSq (faceCrossSum f)) ∧
    (∀ f ∈ degMesh.faces 4, ∀ t ∈ f.triangles, triangleCross t = ⟨0, 0, 0⟩) ∧
    calculate degMesh 4 true true = (0, 0) :=
  ⟨by norm_num [degMesh, normSq, faceCrossSum, triangleCross, crossVec,
      subPoint, addPoint],
   by norm_num [degMesh, triangleCross, crossVec, subPoint],
   degenerate_triangles_contribute_zero.2 degMesh 4
     (by norm_num [degMesh, normSq, faceCrossSum, triangleCross, crossVec,
        subPoint, addPoint])
     (by norm_num [degMesh, triangleCross, crossVec, subPoint])⟩

/-- Rigid translation of a point by the vector v. -/
def translatePoint (v p : Point3) : Point3 :=
  ⟨p.x + v.x, p.y + v.y, p.z + v.z⟩

/-- Translation of a triangle translates its three points. -/
def translateTriangle (v : Point3) (t : Triangle) : Triangle :=
  ⟨translatePoint v t.p1, translatePoint v t.p2, translatePoint v t.p3⟩

/-- Translating a face translates its points; rigid translation changes
neither the geometric face normal nor the surface area Maya reports. -/
def translateFace (v : Point3) (f : Face) : Face :=
  ⟨f.normal, f.triangles.map (translateTriangle v), f.faceArea⟩

/-- Rigid translation of every point of a mesh. -/
def translateMesh (v : Point3) (m : Mesh) : Mesh :=
  ⟨fun s => (m.faces s).map (translateFace v)⟩

/-- Uniform scaling of a point by the factor k. -/
def scalePoint (k : ℚ) (p : Point3) : Point3 :=
  ⟨k * p.x, k * p.y, k * p.z⟩

/-- Scaling of a triangle scales its three points. -/
def scaleTriangle (k : ℚ) (t : Triangle) : Triangle :=
  ⟨scalePoint k t.p1, scalePoint k t.p2, scalePoint k t.p3⟩

/-- Uniformly scaling a face by a non-negative factor k scales its points by
k, keeps its geometric normal direction, and scales the surface area Maya
reports by k². -/
def scaleFace (k : ℚ) (f : Face) : Face :=
  ⟨f.normal, f.triangles.map (scaleTriangle k), k ^ 2 * f.faceArea⟩

/-- Uniform scaling of every point of a mesh. -/
def scaleMesh (k : ℚ) (m : Mesh) : Mesh :=
  ⟨fun s => (m.faces s).map (scaleFace k)⟩

theorem shoelaceX2_translate (v p1 p2 p3 : Point3) :
    shoelaceX2 (translatePoint v p1) (translatePoint v p2) (translatePoint v p3)
      = shoelaceX2 p1 p2 p3 := by
  simp only [shoelaceX2, translatePoint]
  ring

theorem triangleArea_translate (v p1 p2 p3 : Point3) :
    triangleArea (translatePoint v p1) (translatePoint v p2) (translatePoint v p3)
      = triangleArea p1 p2 p3 := by
  rw [triangleArea_abs, triangleArea_abs, shoelaceX2_translate]

theorem triPrism_translate (v : Point3) (t : Triangle) :
    triPrism (translateTriangle v t) = triPrism t + v.z * triArea t := by
  simp only [triPrism, translateTriangle, triArea]
  rw [triangleArea_translate]
  simp only [prismVolume, translatePoint]
  ring

theorem faceVolumeContrib_translate (v : Point3) (f : Face) :
    faceVolumeContrib (translateFace v f)
      = faceVolumeContrib f
        + v.z * (signFactor f * (f.triangles.map triArea).sum) := by
  have hsign : signFactor (translateFace v f) = signFactor f := rfl
  unfold faceVolumeContrib
  rw [hsign]
  have htri : (translateFace v f).triangles = f.triangles.map (translateTriangle v) := rfl
  rw [htri, List.map_map]
  have hcong : List.map (triPrism ∘ translateTriangle v) f.triangles
      = List.map (fun t => triPrism t + v.z * triArea t) f.triangles :=
    map_congr_mem _ _ _ (fun t _ => triPrism_translate v t)
  rw [hcong, sum_map_add, sum_map_mul_const]
  ring

theorem volumeSum_translate (v : Point3) (m : Mesh) (s : Nat) :
    volumeSum (translateMesh v m) s = volumeSum m s + v.z * projectedArea m s := by
  unfold volumeSum projectedArea
  have hfaces : (translateMesh v m).faces s = (m.faces s).map (translateFace v) := rfl
  rw [hfaces, List.map_map]
  have hcong : List.map (faceVolumeContrib ∘ translateFace v) (m.faces s)
      = List.map (fun f => faceVolumeContrib f
          + v.z * (signFactor f * (f.triangles.map triArea).sum)) (m.faces s) :=
    map_congr_mem _ _ _ (fun f _ => faceVolumeContrib_translate v f)
  rw [hcong, sum_map_add, sum_map_mul_const]

theorem areaSum_translate (v : Point3) (m : Mesh) (s : Nat) :
    areaSum (translateMesh v m) s = areaSum m s := by
  unfold areaSum
  have hfaces : (translateMesh v m).faces s = (m.faces s).map (translateFace v) := rfl
  rw [hfaces, List.map_map]
  rfl

theorem shoelaceX2_scale (k : ℚ) (p1 p2 p3 : Point3) :
    shoelaceX2 (scalePoint k p1) (scalePoint k p2) (scalePoint k p3)
      = k ^ 2 * shoelaceX2 p1 p2 p3 := by
  simp only [shoelaceX2, scalePoint]
  ring

theorem triangleArea_scale (k : ℚ) (p1 p2 p3 : Point3) :
    triangleArea (scalePoint k p1) (scalePoint k p2) (scalePoint k p3)
      = k ^ 2 * triangleArea p1 p2 p3 := by
  rw [triangleArea_abs, triangleArea_abs, shoelaceX2_scale, abs_mul,
    abs_of_nonneg (sq_nonneg k)]
  ring

theorem triPrism_scale (k : ℚ) (t : Triangle) :
    triPrism (scaleTriangle k t) = k ^ 3 * triPrism t := by
  simp only [triPrism, scaleTriangle]
  rw [triangleArea_scale]
  simp only [prismVolume, scalePoint]
  ring

theorem faceVolumeContrib_scale (k : ℚ) (f : Face) :
    faceVolumeContrib (scaleFace k f) = k ^ 3 * faceVolumeContrib f := by
  have hsign : signFactor (scaleFace k f) = signFactor f := rfl
  unfold faceVolumeContrib
  rw [hsign]
  have htri : (scaleFace k f).triangles = f.triangles.map (scaleTriangle k) := rfl
  rw [htri, List.map_map]
  have hcong : List.map (triPrism ∘ scaleTriangle k) f.triangles
      = List.map (fun t => k ^ 3 * triPrism t) f.triangles :=
    map_congr_mem _ _ _ (fun t _ => triPrism_scale k t)
  rw [hcong, sum_map_mul_const]
  ring

theorem volumeSum_scale (k : ℚ) (m : Mesh) (s : Nat) :
    volumeSum (scaleMesh k m) s = k ^ 3 * volumeSum m s := by
  unfold volumeSum
  have hfaces : (scaleMesh k m).faces s = (m.faces s).map (scaleFace k) := rfl
  rw [hfaces, List.map_map]
  have hcong : List.map (faceVolumeContrib ∘ scaleFace k) (m.faces s)
      = List.map (fun f => k ^ 3 * faceVolumeContrib f) (m.faces s) :=
    map_congr_mem _ _ _ (fun f _ => faceVolumeContrib_scale k f)
  rw [hcong, sum_map_mul_const]

theorem areaSum_scale (k : ℚ) (m : Mesh) (s : Nat) :
    areaSum (scaleMesh k m) s = k ^ 2 * areaSum m s := by
  unfold areaSum
  have hfaces : (scaleMesh k m).faces s = (m.faces s).map (scaleFace k) := rfl
  rw [hfaces, List.map_map]
  have hcong : List.map (Face.faceArea ∘ scaleFace k) (m.faces s)
      = List.map (fun f => k ^ 2 * f.faceArea) (m.faces s) :=
    map_congr_mem _ _ _ (fun f _ => rfl)
  rw [hcong, sum_map_mul_const]

/-- C6: on a mesh whose signed projected triangle areas balance to zero (as
they do for any closed, consistently oriented mesh), rigid translation
leaves the computed volume and area unchanged; uniform scaling by k ≥ 0
multiplies the computed volume by k³ and the computed area by k². -/
theorem calculate_translate_scale (m : Mesh) (s : Nat) (v : Point3) (k : ℚ)
    (hk : 0 ≤ k) (hclosed : projectedArea m s = 0) :
    calculate (translateMesh v m) s true true = calculate m s true true ∧
    (calculate (scaleMesh k m) s true true).1
      = k ^ 3 * (calculate m s true true).1 ∧
    (calculate (scaleMesh k m) s true true).2
      = k ^ 2 * (calculate m s true true).2 := by
  rw [calculate_true_true, calculate_true_true, calculate_true_true]
  refine ⟨?_, ?_, ?_⟩
  · rw [volumeSum_translate, areaSum_translate, hclosed]
    simp
  · show volumeSum (scaleMesh k m) s = k ^ 3 * volumeSum m s
    exact volumeSum_scale k m s
  · show areaSum (scaleMesh k m) s = k ^ 2 * areaSum m s
    exact areaSum_scale k m s

/-- C6 witness: the unit cube has balanced projected areas; translating it
by (1, 2, 3) preserves its measures and scaling it by 2 scales volume by 8
and area by 4. -/
theorem calculate_translate_scale_witness :
    (0 : ℚ) ≤ 2 ∧ projectedArea unitCube 4 = 0 ∧
    (calculate (translateMesh ⟨1, 2, 3⟩ unitCube) 4 true true
        = calculate unitCube 4 true true ∧
      (calculate (scaleMesh 2 unitCube) 4 true true).1
        = 2 ^ 3 * (calculate unitCube 4 true true).1 ∧
      (calculate (scaleMesh 2 unitCube) 4 true true).2
        = 2 ^ 2 * (calculate unitCube 4 true true).2) :=
  ⟨by norm_num,
   by norm_num [projectedArea, unitCube, signFactor, triArea, triangleArea],
   calculate_translate_scale unitCube 4 ⟨1, 2, 3⟩ 2 (by norm_num)
     (by norm_num [projectedArea, unitCube, signFactor, triArea, triangleArea])⟩

/-- The data kinds the node's input handle can carry; every non-mesh kind is
collapsed into kInvalid. -/
inductive MFnDataKind
  | kMesh
  | kInvalid
deriving DecidableEq

/-- The node's mesh input handle: `kind` is what `meshSrcHandle.type()`
reports, `mesh` the value `asMesh()` yields (meaningful only when the kind
is kMesh). -/
structure MDataHandle where
  kind : MFnDataKind
  mesh : Mesh

/-- Embeds MeshInfoNode.kSpaceMapping = {0: 2, 1: 4}; the node's `space`
attribute is an enum with fields 0 (kObject) and 1 (kWorld) only, so its
short value is a Fin 2 and the dictionary lookup is total. -/
def MeshInfoNode.kSpaceMapping (s : Fin 2) : Nat :=
  if s = 0 then 2 else 4

/-- Embeds MeshInfoNode.compute: outputs start at volume = 0, area = 0; when
the input handle's type is kMesh the space short is mapped through
kSpaceMapping and `calculate` runs with both quantities on (its defaults);
otherwise the outputs are written out still zero. -/
def MeshInfoNode.compute (meshSrcHandle : MDataHandle) (spaceData : Fin 2) :
    ℚ × ℚ :=
  if meshSrcHandle.kind = MFnDataKind.kMesh then
    calculate meshSrcHandle.mesh (MeshInfoNode.kSpaceMapping spaceData) true true
  else
    (0, 0)

/-- C3: when the input handle's data type is not a mesh, the measurement is
not performed and both node outputs are zero, whatever the handle's mesh
payload and space value. -/
theorem compute_invalid_mesh_zero (h : MDataHandle) (s : Fin 2)
    (hk : h.kind ≠ MFnDataKind.kMesh) :
    MeshInfoNode.compute h s = (0, 0) := by
  unfold MeshInfoNode.compute
  rw [if_neg hk]

/-- C3 witness: a concrete handle of non-mesh kind. -/
theorem compute_invalid_mesh_zero_witness :
    (MDataHandle.mk MFnDataKind.kInvalid unitCube).kind ≠ MFnDataKind.kMesh ∧
    MeshInfoNode.compute ⟨MFnDataKind.kInvalid, unitCube⟩ 0 = (0, 0) :=
  ⟨by decide,
   compute_invalid_mesh_zero ⟨MFnDataKind.kInvalid, unitCube⟩ 0 (by decide)⟩

/-- One entry of the command's selection list, after `getDagPath(0, dag)`
and `dag.extendToShape()`: the shape node's identifier (modelling its Maya
node name) and the mesh geometry read through the dag path. -/
structure SelectedObject where
  shapeName : Nat
  shapeMesh : Mesh

/-- The errors MeshInfoCommand.doIt raises on bad selections: runtimeError
carries the message "Maya command error!" (empty selection), typeError the
message "Too many objects or values!" (more than one object). -/
inductive CmdError
  | runtimeError
  | typeError
deriving DecidableEq

/-- The meshInfo node created by the construction-history branch: its name,
the short written by `spacePlug.setShort(spaceBool*1)`, and the source of
the connection made into its inMesh plug — the shape node owning the
`worldMesh` array plug and the logical index used on that array. -/
structure CreatedNode where
  name : Nat
  spaceShort : Nat
  srcPlugNode : Nat
  srcPlugIndex : Nat
deriving DecidableEq

/-- The result MeshInfoCommand.doIt sets: a volume float or a node name. -/
inductive CmdResult
  | volumeResult (v : ℚ)
  | nodeResult (n : CreatedNode)
deriving DecidableEq

/-- Embeds MeshInfoCommand.kSpaceMapping = {False: 2, True: 4}. -/
def MeshInfoCommand.kSpaceMapping (b : Bool) : Nat :=
  if b then 4 else 2

/-- Python's `spaceBool * 1`: the boolean written as a short. -/
def boolToShort (b : Bool) : Nat :=
  if b then 1 else 0

/-- Embeds MeshInfoCommand.doIt after successful argument parsing:
`selection` is the parsed object list, `wsFlag` and `chFlag` the values of
the worldSpace / constructionHistory flags where set, and `freshName` the
name Maya assigns to the node made by `meshInfoObj.create("meshInfo")`.
An empty selection raises RuntimeError and more than one object TypeError,
both before any flag is read; otherwise the single object is processed:
without construction history the result is the volume component of
`calculate` with `calculateArea=False`, with construction history a
meshInfo node is created, its space plug set to `spaceBool*1`, its inMesh
plug connected from the shape's `worldMesh[0]`, and its name returned. -/
def MeshInfoCommand.doIt (selection : List SelectedObject)
    (wsFlag chFlag : Option Bool) (freshName : Nat) :
    Except CmdError CmdResult :=
  match selection with
  | [] => Except.error CmdError.runtimeError
  | _ :: _ :: _ => Except.error CmdError.typeError
  | [obj] =>
    let spaceBool : Bool :=
      match wsFlag with
      | some b => b
      | none => true
    let spaceInt : Nat := MeshInfoCommand.kSpaceMapping spaceBool
    let ch : Bool :=
      match chFlag with
      | some b => b
      | none => false
    if ch = false then
      Except.ok (CmdResult.volumeResult
        (calculate obj.shapeMesh spaceInt true false).1)
    else
      Except.ok (CmdResult.nodeResult
        ⟨freshName, boolToShort spaceBool, obj.shapeName, 0⟩)

/-- C7: on a single selected mesh, the command returns the mesh's volume
(area work disabled) when the effective constructionHistory flag is false,
and the name of a freshly created meshInfo node — space plug set from the
effective worldSpace flag, inMesh connected from the shape's worldMesh[0]
— when the flag is true. -/
theorem doIt_single_selection (obj : SelectedObject) (ws ch : Option Bool)
    (fn : Nat) :
    (ch.getD false = false →
      MeshInfoCommand.doIt [obj] ws ch fn
        = Except.ok (CmdResult.volumeResult
            (calculate obj.shapeMesh
              (MeshInfoCommand.kSpaceMapping (ws.getD true)) true false).1)) ∧
    (ch.getD false = true →
      MeshInfoCommand.doIt [obj] ws ch fn
        = Except.ok (CmdResult.nodeResult
            ⟨fn, boolToShort (ws.getD true), obj.shapeName, 0⟩)) := by
  constructor
  · intro hch
    cases ws <;> cases ch <;> simp_all [MeshInfoCommand.doIt, Option.getD]
  · intro hch
    cases ws <;> cases ch <;> simp_all [MeshInfoCommand.doIt, Option.getD]

/-- C7 witness: with constructionHistory set, the command returns the fresh
node's name with world space (the default) written to its space plug. -/
theorem doIt_single_selection_witness :
    (some true : Option Bool).getD false = true ∧
    MeshInfoCommand.doIt [⟨5, unitCube⟩] none (some true) 7
      = Except.ok (CmdResult.nodeResult ⟨7, 1, 5, 0⟩) :=
  ⟨rfl, (doIt_single_selection ⟨5, unitCube⟩ none (some true) 7).2 rfl⟩

/-- C8: with zero selected objects the command raises RuntimeError, with
more than one it raises TypeError; in both cases the error is raised for
every flag combination and every selection payload, before `calculate` is
reached and with no node created. -/
theorem doIt_bad_selection_errors (ws ch : Option Bool) (fn : Nat)
    (o1 o2 : SelectedObject) (rest : List SelectedObject) :
    MeshInfoCommand.doIt [] ws ch fn = Except.error CmdError.runtimeError ∧
    MeshInfoCommand.doIt (o1 :: o2 :: rest) ws ch fn
      = Except.error CmdError.typeError :=
  ⟨rfl, rfl⟩

/-- C10: invoking the command without the worldSpace flag behaves exactly as
invoking it with worldSpace=True. -/
theorem doIt_default_worldSpace (sel : List SelectedObject) (ch : Option Bool)
    (fn : Nat) :
    MeshInfoCommand.doIt sel none ch fn
      = MeshInfoCommand.doIt sel (some true) ch fn := by
  rcases sel with _ | ⟨o, _ | ⟨o2, rest⟩⟩ <;> rfl
